import Mathlib

/-!
Verification of the subdomain scanner (`subdomain_scanner.py`).

The development shallowly embeds the scanner's pure logic:

* Python string helpers (`str.strip`, `str.lower` on ASCII) as `pyStrip` /
  `pyLower`;
* the network as an explicit oracle `NetEnv` (`resolveA` models
  `dns.resolver.Resolver.resolve(name, A)`, returning `none` on any
  resolution error, and `httpGet` models `requests.get`, returning the
  status code or `none` when the request raises);
* the discovery methods `dns_scan` / `http_scan` / `certificate_scan`, the
  probe loop of `check_subdomain` (lines 100-113), and its locked state
  update (lines 115-134) as `check_subdomain_update`;
* the candidate sources (`load_subdomains_from_file`, `common_subdomains`)
  and scan drivers as folds over the dispatched candidate list;
* the output handlers (`JSONOutput`, `CSVOutput`) as pure functions from
  the written records to the accumulated file content, together with a
  small JSON reader used to check what the JSON sink actually produces.
-/

/- ### Python string primitives (ASCII fragment used by the scanner) -/

/-- Whitespace characters recognised by Python's `str.strip()` (ASCII part:
space, tab, newline, carriage return, vertical tab, form feed). -/
def isPySpace (c : Char) : Bool :=
  c.toNat == 32 || c.toNat == 9 || c.toNat == 10 || c.toNat == 13 ||
  c.toNat == 11 || c.toNat == 12

/-- Strip leading and trailing Python whitespace from a character list. -/
def stripData (l : List Char) : List Char :=
  ((l.dropWhile isPySpace).reverse.dropWhile isPySpace).reverse

/-- Python `str.strip()` (ASCII whitespace). -/
def pyStrip (s : String) : String := ⟨stripData s.data⟩

/-- Python `str.lower()` on one character, restricted to the ASCII range
(`A`-`Z` maps to `a`-`z`, everything else is unchanged). -/
def pyToLower (c : Char) : Char :=
  if 65 ≤ c.toNat ∧ c.toNat ≤ 90 then Char.ofNat (c.toNat + 32) else c

/-- Python `str.lower()` (ASCII fragment). -/
def pyLower (s : String) : String := ⟨s.data.map pyToLower⟩

/-- Python `s.startswith(pre)`: `pre` is a character-level prefix of `s`. -/
def pyStartsWith (s pre : String) : Bool := List.isPrefixOf pre.data s.data

/- ### Data model -/

/-- A successful probe result, the tuple `(full_domain, ips, method)`
returned by the `*_scan` methods. -/
abbrev DiscoveryRecord := String × List String × String

/-- The network oracle: `resolveA` models `resolver.resolve(name, A)`
(`none` for any resolution error, `some ips` for a successful answer) and
`httpGet` models `requests.get(url)` (`none` when the request raises, or
`some code` for a response with that status code). -/
structure NetEnv where
  resolveA : String → Option (List String)
  httpGet : String → Option Nat

/-- `SubdomainScanner.__init__` line 24: `self.domain = domain.lower().strip()`. -/
def scanner_domain (domain : String) : String := pyStrip (pyLower domain)

/-- `full_domain = f"{subdomain}.{self.domain}"` (lines 68, 78): the fully
qualified name under test.  `domain` is the scanner's stored base domain. -/
def full_domain (domain sub : String) : String := sub ++ "." ++ domain

/- ### Discovery methods (lines 66-98) -/

/-- `dns_scan` (lines 66-74): resolve the A record of the full domain;
any exception yields `None`. -/
def dns_scan (env : NetEnv) (domain sub : String) : Option DiscoveryRecord :=
  match env.resolveA (full_domain domain sub) with
  | some ips => some (full_domain domain sub, ips, "DNS")
  | none => none

/-- The protocol loop body of `http_scan` (lines 79-91): try each protocol
in order; a response with status below 400 is a hit, an exception or a
status of 400 or more moves on to the next protocol. -/
def httpLoop (env : NetEnv) (full : String) : List String → Option DiscoveryRecord
  | [] => none
  | protocol :: rest =>
    match env.httpGet (protocol ++ "://" ++ full) with
    | some code =>
      if code < 400 then some (full, [protocol ++ "://" ++ full], "HTTP")
      else httpLoop env full rest
    | none => httpLoop env full rest

/-- `http_scan` (lines 76-92): try `https` then `http`. -/
def http_scan (env : NetEnv) (domain sub : String) : Option DiscoveryRecord :=
  httpLoop env (full_domain domain sub) ["https", "http"]

/-- `certificate_scan` (lines 94-98): the stub always returns `None`. -/
def certificate_scan (_env : NetEnv) (_domain _sub : String) : Option DiscoveryRecord :=
  none

/- ### Probe pipeline of `check_subdomain` (lines 100-113) -/

/-- The `for method in methods` loop of `check_subdomain`: `result` is the
carried Python variable (an unrecognised method name leaves it unchanged),
and the loop breaks at the first truthy `result`. -/
def checkLoop (env : NetEnv) (domain sub : String) :
    Option DiscoveryRecord → List String → Option DiscoveryRecord
  | result, [] => result
  | result, m :: ms =>
    let result :=
      if m = "dns" then dns_scan env domain sub
      else if m = "http" then http_scan env domain sub
      else if m = "cert" then certificate_scan env domain sub
      else result
    match result with
    | some r => some r
    | none => checkLoop env domain sub none ms

/-- The probe pipeline of `check_subdomain` (lines 102-113): the value of
`result` when the loop exits, starting from `result = None`. -/
def check_subdomain (env : NetEnv) (domain sub : String)
    (methods : List String) : Option DiscoveryRecord :=
  checkLoop env domain sub none methods

/-- What a single entry of the method dispatch (lines 105-110) produces
when the carried result is `None`: the per-method outcome. -/
def run_method (env : NetEnv) (domain sub m : String) : Option DiscoveryRecord :=
  if m = "dns" then dns_scan env domain sub
  else if m = "http" then http_scan env domain sub
  else if m = "cert" then certificate_scan env domain sub
  else none

/-- Instrumented variant of the `check_subdomain` loop: additionally
returns the list of method names whose discovery function was invoked, in
invocation order. -/
def checkLoopTrace (env : NetEnv) (domain sub : String) :
    Option DiscoveryRecord → List String → Option DiscoveryRecord × List String
  | result, [] => (result, [])
  | result, m :: ms =>
    let called : Bool := m = "dns" || m = "http" || m = "cert"
    let result :=
      if m = "dns" then dns_scan env domain sub
      else if m = "http" then http_scan env domain sub
      else if m = "cert" then certificate_scan env domain sub
      else result
    match result with
    | some r => (some r, if called then [m] else [])
    | none =>
      let next := checkLoopTrace env domain sub none ms
      (next.1, (if called then [m] else []) ++ next.2)

/-- Instrumented `check_subdomain`: result together with the invocation
trace. -/
def checkTrace (env : NetEnv) (domain sub : String)
    (methods : List String) : Option DiscoveryRecord × List String :=
  checkLoopTrace env domain sub none methods

/- ### Scan state and the locked update (lines 22-31, 115-134) -/

/-- The shared mutable scan state: `checked_count` and `found_subdomains`.
The Python `set` is modelled as a duplicate-free list with membership-test
insertion. -/
structure ScanState where
  checked_count : Nat
  found : List String
deriving Repr, DecidableEq

/-- The state set up by `__init__` (lines 28, 30): zero checked, nothing
found. -/
def scanInit : ScanState := ⟨0, []⟩

/-- `self.found_subdomains.add(domain)` (line 119): set insertion —
a no-op when the domain is already present. -/
def foundInsert (l : List String) (d : String) : List String :=
  if d ∈ l then l else l ++ [d]

/-- The locked block of `check_subdomain` (lines 115-134): increment
`checked_count`; on a hit, insert the domain into `found_subdomains`. -/
def check_subdomain_update (st : ScanState) (result : Option DiscoveryRecord) :
    ScanState :=
  match result with
  | some (domain, _, _) =>
    { checked_count := st.checked_count + 1, found := foundInsert st.found domain }
  | none => { st with checked_count := st.checked_count + 1 }

/-- A completed scan over a list of dispatched candidates: every submitted
`check_subdomain` task runs its probe pipeline and then its locked update
(the lock serialises the updates, so a completed run is a fold over the
candidates in some completion order). -/
def runScan (env : NetEnv) (domain : String) (methods : List String)
    (subs : List String) : ScanState :=
  subs.foldl (fun st sub => check_subdomain_update st (check_subdomain env domain sub methods)) scanInit

/- ### Candidate sources (lines 48-64, 157-171) -/

/-- `load_subdomains_from_file` (lines 48-64).  The file is modelled as
`none` when opening or reading it raises (`FileNotFoundError` or any other
exception) and `some lines` when it is readable with those lines.  Each
line is stripped; empty and `#`-prefixed entries are skipped; the rest is
collected into a set (modelled as `dedup`).  The Boolean records whether
the error message of line 60/63 was printed; in the error case the
function returns the empty list instead of raising. -/
def load_subdomains_from_file (file : Option (List String)) : List String × Bool :=
  match file with
  | some lines =>
    ((((lines.map pyStrip).filter fun s => !(s == "") && !(pyStartsWith s "#"))).dedup, false)
  | none => ([], true)

/-- `scan_with_wordlist` (lines 136-155): load the wordlist and run one
probe task per loaded candidate (an empty load returns before dispatching
anything, which leaves the state at `scanInit`, the same as folding over
an empty list). -/
def scan_with_wordlist (env : NetEnv) (domain : String) (methods : List String)
    (file : Option (List String)) : ScanState :=
  runScan env domain methods (load_subdomains_from_file file).1

/-- The built-in common-name list of `common_scan` (lines 159-171),
transcribed verbatim. -/
def common_subdomains : List String :=
  ["www", "mail", "ftp", "localhost", "webmail", "smtp", "pop", "ns1", "webdisk",
   "ns2", "cpanel", "whm", "autodiscover", "autoconfig", "ns", "test", "admin",
   "blog", "dev", "api", "secure", "vpn", "mobile", "shop", "app", "cdn", "m",
   "email", "portal", "support", "forum", "news", "media", "static", "docs",
   "store", "shop", "db", "sql", "backup", "old", "new", "beta", "staging",
   "mail2", "test", "live", "search", "images", "img", "download", "uploads",
   "video", "music", "demo", "help", "kb", "wiki", "status", "monitor",
   "payment", "billing", "invoice", "secure", "ssl", "cdn", "cloud", "server",
   "serv", "service", "services", "app", "apps", "office", "remote", "share",
   "shared", "sharepoint", "ftp", "file", "files", "doc", "docs", "document",
   "map", "yiyan", "chat", "baijiahao", "ti", "zhidao"]

/-- The candidate labels submitted to the executor by `common_scan`
(lines 176-179): the dict comprehension calls `executor.submit` once per
element of `common_subdomains`, in order. -/
def commonScanDispatch : List String :=
  common_subdomains.foldl (fun acc s => acc ++ [s]) []

/- ### Output sinks (lines 204-258) -/

/-- Concatenation of a list of strings, used to describe sink output. -/
def strConcat : List String → String
  | [] => ""
  | s :: rest => s ++ strConcat rest

/-- The first line of a file's content: the characters before the first
newline. -/
def firstLine (s : String) : String := ⟨s.data.takeWhile fun c => c != '\n'⟩

/-- `CSVOutput.write_header` (lines 253-254). -/
def csv_write_header : String := "domain,ips,method,discovery_time\n"

/-- `CSVOutput.write` (lines 256-258): one row, `ips` semicolon-joined,
every field in double quotes.  `time` is the `datetime.now().isoformat()`
string captured at write time. -/
def csv_write (domain : String) (ips : List String) (method time : String) : String :=
  "\"" ++ domain ++ "\",\"" ++ String.intercalate ";" ips ++ "\",\"" ++
    method ++ "\",\"" ++ time ++ "\"\n"

/-- The full content of a CSV sink after the header and a sequence of
`write` calls: each entry is `(domain, ips, method, discovery_time)`. -/
def csvFileContent (entries : List (String × List String × String × String)) : String :=
  entries.foldl (fun acc e => acc ++ csv_write e.1 e.2.1 e.2.2.1 e.2.2.2) csv_write_header

/- ### JSON sink (lines 230-250) -/

/-- One lowercase hexadecimal digit. -/
def hexDigit (n : Nat) : Char :=
  if n < 10 then Char.ofNat (48 + n) else Char.ofNat (87 + n)

/-- Four lowercase hexadecimal digits, as emitted by `json.dumps` in a
`\uXXXX` escape. -/
def hex4 (n : Nat) : String :=
  ⟨[hexDigit (n / 4096 % 16), hexDigit (n / 256 % 16), hexDigit (n / 16 % 16),
    hexDigit (n % 16)]⟩

/-- `json.dumps` escaping of one character (default `ensure_ascii=True`):
quote and backslash are backslash-escaped, the common control characters
use their short escapes, other control characters and all non-ASCII
characters become `\uXXXX` (a surrogate pair above `U+FFFF`). -/
def jsonEscapeChar (c : Char) : String :=
  if c = '"' then "\\\""
  else if c = '\\' then "\\\\"
  else if c = '\n' then "\\n"
  else if c = '\t' then "\\t"
  else if c = '\r' then "\\r"
  else if c.toNat = 8 then "\\b"
  else if c.toNat = 12 then "\\f"
  else if c.toNat < 32 then "\\u" ++ hex4 c.toNat
  else if c.toNat < 127 then ⟨[c]⟩
  else if c.toNat < 65536 then "\\u" ++ hex4 c.toNat
  else
    "\\u" ++ hex4 (55296 + (c.toNat - 65536) / 1024) ++
    "\\u" ++ hex4 (56320 + (c.toNat - 65536) % 1024)

/-- `json.dumps` escaping of a string body. -/
def jsonEscape (s : String) : String := strConcat (s.data.map jsonEscapeChar)

/-- A JSON string literal as serialised by `json.dumps`. -/
def jsonStrLit (s : String) : String := "\"" ++ jsonEscape s ++ "\""

/-- `JSONOutput.write_header` (lines 231-235): opens the `scan_info`
object and its `subdomains` array.  Note it opens two objects. -/
def json_write_header (startTime : String) : String :=
  "\x7b\"scan_info\": \x7b\"start_time\": \"" ++ startTime ++ "\", \"subdomains\": ["

/-- The string `json.dumps` produces for one entry of `JSONOutput.write`
(lines 240-245): keys in insertion order with the default `", "` / `": "`
separators. -/
def json_dumps_entry (domain : String) (ips : List String) (method time : String) :
    String :=
  "\x7b\"domain\": " ++ jsonStrLit domain ++ ", \"ips\": [" ++
    String.intercalate ", " (ips.map jsonStrLit) ++ "], \"method\": " ++
    jsonStrLit method ++ ", \"discovery_time\": " ++ jsonStrLit time ++ "\x7d"

/-- The sequence of `JSONOutput.write` calls (lines 237-246): a comma
before every entry except the first (`first_entry` flag). -/
def jsonWrites : List (String × List String × String × String) → Bool → String
  | [], _ => ""
  | e :: es, first =>
    (if first then "" else ",") ++ json_dumps_entry e.1 e.2.1 e.2.2.1 e.2.2.2 ++
      jsonWrites es false

/-- The full content of a JSON sink: header, the writes, then the `]}`
written by `close` (lines 248-250). -/
def jsonFileContent (startTime : String)
    (entries : List (String × List String × String × String)) : String :=
  json_write_header startTime ++ jsonWrites entries true ++ "]\x7d"

/- ### A small JSON reader (strings, arrays, objects) -/

/-- JSON values of the shapes the sink emits. -/
inductive JVal where
  | str : String → JVal
  | arr : List JVal → JVal
  | obj : List (String × JVal) → JVal

/-- JSON insignificant whitespace. -/
def isJsonSpace (c : Char) : Bool :=
  c = ' ' || c = '\t' || c = '\n' || c = '\r'

/-- Skip insignificant whitespace. -/
def jsonSkipWs (l : List Char) : List Char := l.dropWhile isJsonSpace

/-- Read a string body after the opening quote, handling the short
backslash escapes; returns the decoded string and the rest of the input. -/
def jsonReadStr : Nat → List Char → Option (String × List Char)
  | 0, _ => none
  | _ + 1, [] => none
  | fuel + 1, c :: rest =>
    if c = '"' then some ("", rest)
    else if c = '\\' then
      match rest with
      | [] => none
      | e :: rest2 =>
        let dec : Option Char :=
          if e = '"' then some '"'
          else if e = '\\' then some '\\'
          else if e = '/' then some '/'
          else if e = 'n' then some '\n'
          else if e = 't' then some '\t'
          else if e = 'r' then some '\r'
          else if e = 'b' then some (Char.ofNat 8)
          else if e = 'f' then some (Char.ofNat 12)
          else none
        match dec with
        | some ch =>
          match jsonReadStr fuel rest2 with
          | some (s, r) => some (⟨ch :: s.data⟩, r)
          | none => none
        | none => none
    else
      match jsonReadStr fuel rest with
      | some (s, r) => some (⟨c :: s.data⟩, r)
      | none => none

mutual

/-- Read one JSON value (string, array or object). -/
def jsonReadVal : Nat → List Char → Option (JVal × List Char)
  | 0, _ => none
  | fuel + 1, l =>
    match jsonSkipWs l with
    | '"' :: rest =>
      match jsonReadStr fuel rest with
      | some (s, r) => some (JVal.str s, r)
      | none => none
    | '[' :: rest =>
      match jsonSkipWs rest with
      | ']' :: r => some (JVal.arr [], r)
      | _ =>
        match jsonReadItems fuel rest with
        | some (vs, r) => some (JVal.arr vs, r)
        | none => none
    | '\x7b' :: rest =>
      match jsonSkipWs rest with
      | '\x7d' :: r => some (JVal.obj [], r)
      | _ =>
        match jsonReadMembers fuel rest with
        | some (ms, r) => some (JVal.obj ms, r)
        | none => none
    | _ => none

/-- Read the items of a non-empty array up to and including the `]`. -/
def jsonReadItems : Nat → List Char → Option (List JVal × List Char)
  | 0, _ => none
  | fuel + 1, l =>
    match jsonReadVal fuel l with
    | some (v, r) =>
      match jsonSkipWs r with
      | ',' :: r2 =>
        match jsonReadItems fuel r2 with
        | some (vs, r3) => some (v :: vs, r3)
        | none => none
      | ']' :: r2 => some ([v], r2)
      | _ => none
    | none => none

/-- Read the members of a non-empty object up to and including the `}`. -/
def jsonReadMembers : Nat → List Char → Option (List (String × JVal) × List Char)
  | 0, _ => none
  | fuel + 1, l =>
    match jsonSkipWs l with
    | '"' :: rest =>
      match jsonReadStr fuel rest with
      | some (k, r) =>
        match jsonSkipWs r with
        | ':' :: r2 =>
          match jsonReadVal fuel r2 with
          | some (v, r3) =>
            match jsonSkipWs r3 with
            | ',' :: r4 =>
              match jsonReadMembers fuel r4 with
              | some (ms, r5) => some ((k, v) :: ms, r5)
              | none => none
            | '\x7d' :: r4 => some ([(k, v)], r4)
            | _ => none
          | none => none
        | _ => none
      | none => none
    | _ => none

end

/-- Parse a complete JSON document (within the string/array/object
fragment): one value followed only by whitespace. -/
def parseJson (s : String) : Option JVal :=
  match jsonReadVal (s.data.length + 8) s.data with
  | some (v, r) => if jsonSkipWs r = [] then some v else none
  | none => none

/- ### Helper lemmas: probe pipeline -/

theorem checkLoop_none_eq_findSome (env : NetEnv) (domain sub : String) :
    ∀ ms : List String,
      checkLoop env domain sub none ms = ms.findSome? (run_method env domain sub)
  | [] => rfl
  | m :: ms => by
    have h : (if m = "dns" then dns_scan env domain sub
        else if m = "http" then http_scan env domain sub
        else if m = "cert" then certificate_scan env domain sub
        else none) = run_method env domain sub m := rfl
    simp only [checkLoop, h, List.findSome?]
    cases run_method env domain sub m with
    | some r => rfl
    | none => exact checkLoop_none_eq_findSome env domain sub ms

theorem checkLoopTrace_fst (env : NetEnv) (domain sub : String) :
    ∀ ms : List String,
      (checkLoopTrace env domain sub none ms).1 = checkLoop env domain sub none ms
  | [] => rfl
  | m :: ms => by
    simp only [checkLoopTrace, checkLoop]
    cases (if m = "dns" then dns_scan env domain sub
        else if m = "http" then http_scan env domain sub
        else if m = "cert" then certificate_scan env domain sub
        else none) with
    | some r => rfl
    | none => exact checkLoopTrace_fst env domain sub ms

theorem checkLoop_skip_unknown (env : NetEnv) (domain sub bad : String)
    (hbad : ¬(bad = "dns" ∨ bad = "http" ∨ bad = "cert")) (ms2 : List String) :
    ∀ ms1 : List String,
      checkLoop env domain sub none (ms1 ++ bad :: ms2) =
        checkLoop env domain sub none (ms1 ++ ms2)
  | [] => by
    have h1 : ¬ bad = "dns" := fun h => hbad (Or.inl h)
    have h2 : ¬ bad = "http" := fun h => hbad (Or.inr (Or.inl h))
    have h3 : ¬ bad = "cert" := fun h => hbad (Or.inr (Or.inr h))
    simp only [List.nil_append, checkLoop, if_neg h1, if_neg h2, if_neg h3]
  | m :: ms1 => by
    simp only [List.cons_append, checkLoop]
    cases (if m = "dns" then dns_scan env domain sub
        else if m = "http" then http_scan env domain sub
        else if m = "cert" then certificate_scan env domain sub
        else none) with
    | some r => rfl
    | none => exact checkLoop_skip_unknown env domain sub bad hbad ms2 ms1

/- ### C3 and C10: probe pipeline claims -/

/-- Claim C3: for every candidate and every method list, `check_subdomain`
runs the methods in the given order and short-circuits at the first method
returning a record, returns `None` exactly when every method misses, and
with methods `[dns, http]` a DNS hit means HTTP is never invoked. -/
theorem check_subdomain_short_circuit (env : NetEnv) (domain sub : String)
    (methods : List String) :
    check_subdomain env domain sub methods =
      methods.findSome? (run_method env domain sub) ∧
    (check_subdomain env domain sub methods = none ↔
      ∀ m ∈ methods, run_method env domain sub m = none) ∧
    (checkTrace env domain sub methods).1 = check_subdomain env domain sub methods ∧
    (∀ r, dns_scan env domain sub = some r →
      checkTrace env domain sub ["dns", "http"] = (some r, ["dns"])) := by
  refine ⟨checkLoop_none_eq_findSome env domain sub methods, ?_, ?_, ?_⟩
  · rw [check_subdomain, checkLoop_none_eq_findSome env domain sub methods]
    exact List.findSome?_eq_none_iff
  · exact checkLoopTrace_fst env domain sub methods
  · intro r h
    simp [checkTrace, checkLoopTrace, h]

/-- A concrete network where DNS resolves `www.example.com` and nothing
else, and every HTTP request raises. -/
def envDnsHit : NetEnv :=
  ⟨fun n => if n = "www.example.com" then some ["93.184.216.34"] else none,
   fun _ => none⟩

/-- Witness for C3: on `envDnsHit`, the `[dns, http]` pipeline for `www`
returns the DNS record and the trace shows HTTP was never invoked. -/
theorem check_subdomain_short_circuit_witness :
    checkTrace envDnsHit "example.com" "www" ["dns", "http"] =
      (some ("www.example.com", ["93.184.216.34"], "DNS"), ["dns"]) :=
  (check_subdomain_short_circuit envDnsHit "example.com" "www" ["dns", "http"]).2.2.2
    ("www.example.com", ["93.184.216.34"], "DNS") rfl

/-- Claim C10: a method name other than `dns`, `http` or `cert` is
silently skipped by the probe pipeline — it contributes a miss, raises no
error, and leaves the outcome of the surrounding methods unchanged. -/
theorem unknown_method_skipped (env : NetEnv) (domain sub : String)
    (ms1 ms2 : List String) (bad : String)
    (hbad : ¬(bad = "dns" ∨ bad = "http" ∨ bad = "cert")) :
    check_subdomain env domain sub (ms1 ++ bad :: ms2) =
      check_subdomain env domain sub (ms1 ++ ms2) :=
  checkLoop_skip_unknown env domain sub bad hbad ms2 ms1

/-- Witness for C10: `bogus` is skipped in `[bogus, dns]`. -/
theorem unknown_method_skipped_witness :
    ¬("bogus" = "dns" ∨ "bogus" = "http" ∨ "bogus" = "cert") ∧
    check_subdomain envDnsHit "example.com" "www" ["bogus", "dns"] =
      check_subdomain envDnsHit "example.com" "www" ["dns"] :=
  ⟨by decide,
   unknown_method_skipped envDnsHit "example.com" "www" [] ["dns"] "bogus" (by decide)⟩

/- ### Helper lemmas: scan state -/

theorem check_subdomain_update_checked (st : ScanState) (r : Option DiscoveryRecord) :
    (check_subdomain_update st r).checked_count = st.checked_count + 1 := by
  cases r with
  | none => rfl
  | some rec => obtain ⟨d, ips, m⟩ := rec; rfl

theorem runScan_foldl_checked (env : NetEnv) (domain : String) (methods : List String) :
    ∀ (subs : List String) (st : ScanState),
      (subs.foldl (fun st sub =>
          check_subdomain_update st (check_subdomain env domain sub methods)) st).checked_count =
        st.checked_count + subs.length
  | [], st => rfl
  | sub :: subs, st => by
    simp only [List.foldl_cons, List.length_cons,
      runScan_foldl_checked env domain methods subs,
      check_subdomain_update_checked]
    omega

theorem foundInsert_nodup (l : List String) (d : String) (h : l.Nodup) :
    (foundInsert l d).Nodup := by
  unfold foundInsert
  by_cases hd : d ∈ l
  · simpa [hd]
  · simp only [hd, if_false]
    exact List.Nodup.append h (List.nodup_singleton d) (by simpa using hd)

theorem check_subdomain_update_found_nodup (st : ScanState)
    (r : Option DiscoveryRecord) (h : st.found.Nodup) :
    (check_subdomain_update st r).found.Nodup := by
  cases r with
  | none => exact h
  | some rec => obtain ⟨d, ips, m⟩ := rec; exact foundInsert_nodup st.found d h

theorem runScan_foldl_found_nodup (env : NetEnv) (domain : String) (methods : List String) :
    ∀ (subs : List String) (st : ScanState), st.found.Nodup →
      (subs.foldl (fun st sub =>
          check_subdomain_update st (check_subdomain env domain sub methods)) st).found.Nodup
  | [], _, h => h
  | sub :: subs, st, h => by
    simp only [List.foldl_cons]
    exact runScan_foldl_found_nodup env domain methods subs _
      (check_subdomain_update_found_nodup st _ h)

/- ### C4 and C5: scan state invariants -/

/-- Claim C4: every processed candidate increments `checked_count` by
exactly one, hit or miss, and a completed run over a dispatched candidate
list leaves `checked_count` equal to its length. -/
theorem checked_count_per_candidate :
    (∀ (st : ScanState) (r : Option DiscoveryRecord),
      (check_subdomain_update st r).checked_count = st.checked_count + 1) ∧
    (∀ (env : NetEnv) (domain : String) (methods subs : List String),
      (runScan env domain methods subs).checked_count = subs.length) := by
  refine ⟨check_subdomain_update_checked, fun env domain methods subs => ?_⟩
  have h := runScan_foldl_checked env domain methods subs scanInit
  simpa [runScan, scanInit] using h

/-- Claim C5: the `found` collection holds each domain at most once —
inserting an already-present domain is a no-op, and after any sequence of
probe completions the collection is duplicate-free. -/
theorem found_insert_idempotent :
    (∀ (st : ScanState) (d : String) (ips : List String) (m : String),
      d ∈ st.found → (check_subdomain_update st (some (d, ips, m))).found = st.found) ∧
    (∀ (env : NetEnv) (domain : String) (methods subs : List String),
      (runScan env domain methods subs).found.Nodup) := by
  constructor
  · intro st d ips m hd
    simp [check_subdomain_update, foundInsert, hd]
  · intro env domain methods subs
    exact runScan_foldl_found_nodup env domain methods subs scanInit List.nodup_nil

/-- Witness for C5: re-inserting `www.example.com` into a state already
containing it leaves `found` unchanged. -/
theorem found_insert_idempotent_witness :
    (check_subdomain_update ⟨1, ["www.example.com"]⟩
      (some ("www.example.com", ["93.184.216.34"], "DNS"))).found =
      ["www.example.com"] :=
  found_insert_idempotent.1 ⟨1, ["www.example.com"]⟩ "www.example.com"
    ["93.184.216.34"] "DNS" (by decide)

/- ### C6: wordlist loading -/

/-- Claim C6: loading from a wordlist trims each line, skips blanks and
`#`-comments, and deduplicates; a missing or unreadable file yields an
empty candidate list plus a reported error, and the scan then proceeds
(completing immediately with nothing checked and nothing found). -/
theorem wordlist_load_spec :
    load_subdomains_from_file none = ([], true) ∧
    (∀ (lines : List String) (s : String),
      s ∈ (load_subdomains_from_file (some lines)).1 ↔
        (∃ line ∈ lines, pyStrip line = s) ∧ s ≠ "" ∧ pyStartsWith s "#" = false) ∧
    (∀ lines : List String, (load_subdomains_from_file (some lines)).1.Nodup) ∧
    (∀ (env : NetEnv) (domain : String) (methods : List String),
      scan_with_wordlist env domain methods none = scanInit) := by
  refine ⟨rfl, ?_, ?_, ?_⟩
  · intro lines s
    simp only [load_subdomains_from_file, List.mem_dedup, List.mem_filter,
      List.mem_map, Bool.and_eq_true, Bool.not_eq_true', beq_eq_false_iff_ne,
      ne_eq]
  · intro lines
    exact List.nodup_dedup _
  · intro env domain methods
    rfl

/- ### C2: the built-in common-name list is not deduplicated -/

theorem foldl_append_singleton (l : List String) :
    ∀ acc : List String, l.foldl (fun acc s => acc ++ [s]) acc = acc ++ l := by
  induction l with
  | nil => intro acc; simp
  | cons x xs ih => intro acc; simp [ih]

/-- Counterexample to Claim C2 as stated: the label `shop` occurs twice in
the candidate source used for a common-list scan, so it is dispatched to
`check_subdomain` twice — the built-in list is not deduplicated. -/
theorem common_list_label_probed_twice :
    commonScanDispatch.count "shop" = 2 ∧ ¬ commonScanDispatch.Nodup := by
  constructor
  · decide
  · intro h
    have := List.nodup_iff_count_le_one.1 h "shop"
    have h2 : commonScanDispatch.count "shop" = 2 := by decide
    omega

/-- Amended C2: when no wordlist path is given, `common_scan` dispatches
the built-in `common_subdomains` list exactly as written — one probe per
occurrence — and that list contains duplicate labels. -/
theorem common_scan_dispatch_matches_list :
    commonScanDispatch = common_subdomains ∧ ¬ common_subdomains.Nodup := by
  constructor
  · simpa using foldl_append_singleton common_subdomains []
  · intro h
    have := List.nodup_iff_count_le_one.1 h "shop"
    have h2 : common_subdomains.count "shop" = 2 := by decide
    omega

/- ### Helper lemmas: strings and characters -/

theorem strConcat_foldl {α : Type} (g : α → String) :
    ∀ (l : List α) (init : String),
      l.foldl (fun acc e => acc ++ g e) init = init ++ strConcat (l.map g)
  | [], init => by simp [strConcat]
  | e :: l, init => by
    simp only [List.foldl_cons, List.map_cons, strConcat]
    rw [strConcat_foldl g l (init ++ g e), String.append_assoc]

theorem firstLine_csv_header (s : String) :
    firstLine ("domain,ips,method,discovery_time\n" ++ s) =
      "domain,ips,method,discovery_time" := rfl

theorem char_toNat_ofNat_of_valid {n : Nat} (h : n.isValidChar) :
    (Char.ofNat n).toNat = n := by
  rw [Char.ofNat, dif_pos h]
  rfl

theorem isPySpace_false_of_ge (c : Char) (h : 33 ≤ c.toNat) :
    isPySpace c = false := by
  simp only [isPySpace, Bool.or_eq_false_iff, beq_eq_false_iff_ne, ne_eq]
  omega

theorem isPySpace_pyToLower (c : Char) : isPySpace (pyToLower c) = isPySpace c := by
  unfold pyToLower
  by_cases h : 65 ≤ c.toNat ∧ c.toNat ≤ 90
  · rw [if_pos h]
    have hv : (Char.ofNat (c.toNat + 32)).toNat = c.toNat + 32 :=
      char_toNat_ofNat_of_valid (Or.inl (by omega))
    rw [isPySpace_false_of_ge _ (by omega), isPySpace_false_of_ge _ (by omega)]
  · rw [if_neg h]

theorem stripData_map_pyToLower (l : List Char) :
    stripData (l.map pyToLower) = (stripData l).map pyToLower := by
  have hcomp : (isPySpace ∘ pyToLower) = isPySpace :=
    funext fun c => isPySpace_pyToLower c
  simp only [stripData, List.dropWhile_map, hcomp, ← List.map_reverse]

/- ### C7: CSV sink format -/

/-- Claim C7: a CSV sink's first line is exactly the header
`domain,ips,method,discovery_time`, and each subsequent row serialises one
record with the `ips` field semicolon-joined and every field enclosed in
double quotes. -/
theorem csv_sink_format (entries : List (String × List String × String × String)) :
    firstLine (csvFileContent entries) = "domain,ips,method,discovery_time" ∧
    csvFileContent entries =
      "domain,ips,method,discovery_time\n" ++
        strConcat (entries.map fun e =>
          "\"" ++ e.1 ++ "\",\"" ++ String.intercalate ";" e.2.1 ++ "\",\"" ++
            e.2.2.1 ++ "\",\"" ++ e.2.2.2 ++ "\"\n") := by
  have h : csvFileContent entries =
      "domain,ips,method,discovery_time\n" ++
        strConcat (entries.map fun e =>
          "\"" ++ e.1 ++ "\",\"" ++ String.intercalate ";" e.2.1 ++ "\",\"" ++
            e.2.2.1 ++ "\",\"" ++ e.2.2.2 ++ "\"\n") :=
    strConcat_foldl
      (fun e : String × List String × String × String =>
        csv_write e.1 e.2.1 e.2.2.1 e.2.2.2)
      entries csv_write_header
  exact ⟨h ▸ firstLine_csv_header _, h⟩

/- ### C9: base-domain normalisation -/

/-- Claim C9: the constructor normalises the base domain by lowercasing
and stripping surrounding whitespace (the two operations commute), so the
fully qualified name under test is always
`label ++ "." ++ pyLower (pyStrip domain)`, with the candidate label used
verbatim. -/
theorem domain_normalization (domain sub : String) :
    scanner_domain domain = pyLower (pyStrip domain) ∧
    full_domain (scanner_domain domain) sub =
      sub ++ "." ++ pyLower (pyStrip domain) := by
  have h : scanner_domain domain = pyLower (pyStrip domain) := by
    apply String.ext
    exact stripData_map_pyToLower domain.data
  exact ⟨h, by rw [full_domain, h]⟩

/- ### C8: HTTP discovery method -/

/-- A scheme fails for `http_scan`: the request raises, or the response
status is 400 or more. -/
def httpMiss (env : NetEnv) (url : String) : Prop :=
  ∀ c, env.httpGet url = some c → 400 ≤ c

/-- Claim C8: `http_scan` attempts `https://` first and then `http://`
against the full domain; it returns an `HTTP` record for the first scheme
whose status code is below 400, and returns `None` exactly when both
schemes fail (an exception counts as a failure for that scheme). -/
theorem http_scan_scheme_order (env : NetEnv) (domain sub : String) :
    (∀ c, env.httpGet ("https://" ++ full_domain domain sub) = some c → c < 400 →
      http_scan env domain sub =
        some (full_domain domain sub,
          ["https://" ++ full_domain domain sub], "HTTP")) ∧
    (httpMiss env ("https://" ++ full_domain domain sub) →
      ∀ c, env.httpGet ("http://" ++ full_domain domain sub) = some c → c < 400 →
        http_scan env domain sub =
          some (full_domain domain sub,
            ["http://" ++ full_domain domain sub], "HTTP")) ∧
    (http_scan env domain sub = none ↔
      httpMiss env ("https://" ++ full_domain domain sub) ∧
      httpMiss env ("http://" ++ full_domain domain sub)) := by
  have e1 : ("https" ++ "://" ++ full_domain domain sub : String) =
      "https://" ++ full_domain domain sub := rfl
  have e2 : ("http" ++ "://" ++ full_domain domain sub : String) =
      "http://" ++ full_domain domain sub := rfl
  simp only [http_scan, httpLoop, e1, e2]
  refine ⟨fun c h hc => ?_, fun hm c h hc => ?_, ?_⟩
  · rw [h]
    simp [hc]
  · cases hg : env.httpGet ("https://" ++ full_domain domain sub) with
    | none => rw [h]; simp [hc]
    | some c' =>
      have hge := hm c' hg
      rw [h]
      simp [show ¬ c' < 400 by omega, hc]
  · constructor
    · intro hnone
      constructor
      · intro c hc
        by_contra hlt
        push_neg at hlt
        rw [hc] at hnone
        simp [hlt] at hnone
      · intro c hc
        by_contra hlt
        push_neg at hlt
        rw [hc] at hnone
        cases hg : env.httpGet ("https://" ++ full_domain domain sub) with
        | some c' =>
          rw [hg] at hnone
          by_cases hcl : c' < 400
          · simp [hcl] at hnone
          · simp [hcl, hlt] at hnone
        | none =>
          rw [hg] at hnone
          simp [hlt] at hnone
    · rintro ⟨hm1, hm2⟩
      cases hg : env.httpGet ("https://" ++ full_domain domain sub) with
      | some c' =>
        have h1 := hm1 c' hg
        cases hg2 : env.httpGet ("http://" ++ full_domain domain sub) with
        | some c2 =>
          have h2 := hm2 c2 hg2
          simp [show ¬ c' < 400 by omega, show ¬ c2 < 400 by omega]
        | none => simp [show ¬ c' < 400 by omega]
      | none =>
        cases hg2 : env.httpGet ("http://" ++ full_domain domain sub) with
        | some c2 =>
          have h2 := hm2 c2 hg2
          simp [show ¬ c2 < 400 by omega]
        | none => rfl

/-- A concrete network where only `https://www.example.com` answers, with
status 200. -/
def envHttpsOk : NetEnv :=
  ⟨fun _ => none,
   fun u => if u = "https://www.example.com" then some 200 else none⟩

/-- Witness for C8: on `envHttpsOk`, `http_scan` returns the HTTPS record
for `www` under `example.com`. -/
theorem http_scan_scheme_order_witness :
    http_scan envHttpsOk "example.com" "www" =
      some ("www.example.com", ["https://www.example.com"], "HTTP") :=
  (http_scan_scheme_order envHttpsOk "example.com" "www").1 200 (by decide)
    (by decide)

/- ### C1: the JSON sink's output -/

set_option maxRecDepth 8192

/-- Claim C1 fails on the code: `JSONOutput.write_header` opens two
objects but `close` writes only `]` and a single closing brace, so the
full sink output is not a JSON value at all — here shown for a scan that
wrote one record.  Appending the missing closing brace makes the same
bytes parse to exactly the claimed
`scan_info / start_time / subdomains` shape, with the entry reconstructing
the record's domain, ips (in order), method and discovery time. -/
theorem json_sink_output_not_json :
    parseJson (jsonFileContent "2024-01-01T00:00:00"
      [("www.example.com", ["93.184.216.34"], "DNS", "2024-01-01T00:00:01")]) =
      none ∧
    parseJson (jsonFileContent "2024-01-01T00:00:00"
      [("www.example.com", ["93.184.216.34"], "DNS", "2024-01-01T00:00:01")] ++
        "\x7d") =
      some (JVal.obj [("scan_info", JVal.obj
        [("start_time", JVal.str "2024-01-01T00:00:00"),
         ("subdomains", JVal.arr [JVal.obj
           [("domain", JVal.str "www.example.com"),
            ("ips", JVal.arr [JVal.str "93.184.216.34"]),
            ("method", JVal.str "DNS"),
            ("discovery_time", JVal.str "2024-01-01T00:00:01")]])])]) :=
  ⟨rfl, rfl⟩

/- ### Concrete instantiations of the hypothesis-free claim theorems -/

/-- Witness for C4: a completed run over two candidates checks exactly
two. -/
theorem checked_count_per_candidate_witness :
    (runScan envDnsHit "example.com" ["dns"] ["www", "mail"]).checked_count = 2 :=
  checked_count_per_candidate.2 envDnsHit "example.com" ["dns"] ["www", "mail"]

/-- Witness for C6: a wordlist with surrounding whitespace, a comment and
a blank line yields the trimmed label. -/
theorem wordlist_load_spec_witness :
    "www" ∈ (load_subdomains_from_file (some ["  www ", "# x", ""])).1 :=
  (wordlist_load_spec.2.1 ["  www ", "# x", ""] "www").mpr
    ⟨⟨"  www ", by decide, by decide⟩, by decide, by decide⟩

/-- Witness for C7: the first line of a one-record CSV sink is the
header. -/
theorem csv_sink_format_witness :
    firstLine (csvFileContent [("www.example.com", ["93.184.216.34"], "DNS",
      "2024-01-01T00:00:01")]) = "domain,ips,method,discovery_time" :=
  (csv_sink_format [("www.example.com", ["93.184.216.34"], "DNS",
    "2024-01-01T00:00:01")]).1

/-- Witness for C9: `" Example.COM "` is normalised while the label `WWW`
is used verbatim. -/
theorem domain_normalization_witness :
    full_domain (scanner_domain " Example.COM ") "WWW" = "WWW.example.com" :=
  ((domain_normalization " Example.COM " "WWW").2).trans (by decide)
